import Mathlib

/-!
Shallow embedding of `src/useChatWebSocket.ts`, the chat session manager of
the react-websocket-chat repository, together with proofs of the claims about
it.

Modelling choices, each tied to the source:

* The inbound event payload seen by `ws.onmessage` is `Option InboundData`:
  `none` stands for a payload on which `JSON.parse` throws (the `catch` branch
  logs and returns), `some d` for a successfully parsed value.  `InboundData`
  records exactly the dynamic fields the dispatcher reads (`data.type`,
  `data.id`, `data.sender`, `data.content`, `data.media`, `data.timestamp`,
  `data.seen_by`, `data.username`, `data.active_users`); each is an `Option`
  because a dynamic property access on a missing key yields `undefined`.

* The value `data.username` passed to `handleTyping` can itself be
  `undefined`, so entries of the typing list are `Username := Option String`
  (`none` = the JavaScript value `undefined`; JavaScript's coercion of the
  key `undefined` to the string key "undefined" in the timeout record is not
  modelled, as no username collides with it in any statement below).

* `media` is an opaque (`unknown`-typed) payload the code only copies; it is
  modelled as an uninterpreted string value.

* Timers: `typingTimeouts.current` is a record mapping a username to a live
  one-shot timeout.  It is modelled as an association list from `Username` to
  the absolute expiry instant in milliseconds; `setTimeout(cb, 3000)` issued
  at instant `now` registers expiry `now + 3000`, `clearTimeout` / `delete`
  remove the entry.  The browser event loop is modelled by `runEvents`, which
  before each external event fires every registered timer whose expiry has
  been reached (timer callbacks only touch their own username, so the firing
  order among simultaneously due timers is immaterial).

* Console logging (`logEvent`) has no effect on any observable state and is
  not modelled.

* `sendWS` receives from its three call sites only the three object shapes
  below, modelled by `WireFrame` (`JSON.stringify` of each shape is injective
  on these, so frames are kept symbolic).  A JavaScript function body without
  a `return` statement evaluates to `undefined`; the return value of the
  three exported send helpers is therefore modelled as `Option Bool`, where
  `none` is `undefined`.
-/

/-- A JavaScript string-or-undefined value: `none` is `undefined`. -/
abbrev Username := Option String

/-- Opaque `media` payload (typed `unknown` in the source; only ever copied). -/
abbrev MediaVal := String

/-- The `WebSocket.readyState` constants. -/
inductive ReadyState where
  | CONNECTING
  | OPEN
  | CLOSING
  | CLOSED
deriving DecidableEq, Repr

/-- The socket handle as `sendWS` inspects it: only `readyState` is read. -/
structure WS where
  readyState : ReadyState
deriving DecidableEq, Repr

/-- A parsed inbound frame, as the dynamically typed `data` value of
`ws.onmessage`: every field the dispatcher may read, `none` for a property
absent from the JSON object. -/
structure InboundData where
  type : Option String := none
  id : Option Int := none
  sender : Option String := none
  content : Option String := none
  media : Option MediaVal := none
  timestamp : Option String := none
  seen_by : Option (List String) := none
  username : Option String := none
  active_users : Option (List String) := none
deriving DecidableEq, Repr

/-- A `ReceivedMessage` as constructed in the `"message"` branch of
`ws.onmessage`.  The TypeScript interface declares `sender`/`content` as
required `string`, but the constructing code copies `data.sender` /
`data.content` without validation, so at runtime they can be `undefined`;
they are therefore `Option` here, like the declared-optional fields. -/
structure ReceivedMessage where
  type : String
  id : Option Int
  sender : Option String
  content : Option String
  media : Option MediaVal
  seen_by : Option (List String)
  timestamp : Option String
deriving DecidableEq, Repr

/-- `SendMessageParams` (the `type: "message"` literal tag is carried by the
`WireFrame.messageFrame` constructor). -/
structure SendMessageParams where
  sender_id : Int
  content : String
  media : Option MediaVal := none
deriving DecidableEq, Repr

/-- The three outbound object shapes handed to `sendWS` by its call sites:
`message` (the caller-supplied `SendMessageParams`), `{ type: "typing",
username }`, and `{ type: "seen", message_ids: ids }`. -/
inductive WireFrame where
  | messageFrame (m : SendMessageParams)
  | typingFrame (username : String)
  | seenFrame (message_ids : List Int)
deriving DecidableEq, Repr

/-- The observable state of one hook instance: the three `useState` cells,
the `typingTimeouts` ref (as an association list username ↦ absolute expiry
instant in ms), and whether `ws.onmessage` is currently attached (set by the
effect body, cleared by its cleanup). -/
structure ChatState where
  receivedMessages : List ReceivedMessage := []
  typingUsers : List Username := []
  activeUsers : List String := []
  typingTimeouts : List (Username × Nat) := []
  handlerAttached : Bool := true
deriving DecidableEq, Repr

/-- The state right after mount: empty state cells, empty timeout record,
handler attached by the effect. -/
def initChatState : ChatState := {}

/-- `handleTyping` at instant `now` (ms).  Mirrors the source exactly: the
functional updater returns early when the username is already present — in
that case neither the typing list nor the timeout record changes; only when
the username is newly added is any existing timeout for it cleared and a
fresh 3000 ms one-shot timeout registered. -/
def handleTyping (now : Nat) (username : Username) (s : ChatState) : ChatState :=
  if username ∈ s.typingUsers then s
  else
    { s with
      typingUsers := s.typingUsers ++ [username]
      typingTimeouts :=
        s.typingTimeouts.filter (fun p => decide (p.1 ≠ username)) ++ [(username, now + 3000)] }

/-- The callback passed to `setTimeout` inside `handleTyping`: filter the
username out of the typing list and delete its entry from the timeout
record.  Also the effect of the timer firing. -/
def typingExpire (username : Username) (s : ChatState) : ChatState :=
  { s with
    typingUsers := s.typingUsers.filter (fun user => decide (user ≠ username))
    typingTimeouts := s.typingTimeouts.filter (fun p => decide (p.1 ≠ username)) }

/-- Construct the appended `ReceivedMessage` from the parsed frame, field by
field as in the `"message"` branch (no validation, no defaulting: absent
stays absent). -/
def mkReceivedMessage (d : InboundData) : ReceivedMessage :=
  { type := "message"
    id := d.id
    sender := d.sender
    content := d.content
    media := d.media
    seen_by := d.seen_by
    timestamp := d.timestamp }

/-- The `ws.onmessage` handler body at instant `now`: `none` is the
`JSON.parse` failure path (log and return, no state change); otherwise the
`switch (data.type)` dispatch, where a JavaScript `switch` is sequential
strict-equality comparison against the case labels, `default` logging only. -/
def onmessage (now : Nat) (raw : Option InboundData) (s : ChatState) : ChatState :=
  match raw with
  | none => s
  | some d =>
    if d.type = some "message" then
      { s with receivedMessages := s.receivedMessages ++ [mkReceivedMessage d] }
    else if d.type = some "typing" then
      handleTyping now d.username s
    else if d.type = some "seen" then
      s
    else if d.type = some "user_status" then
      { s with activeUsers := d.active_users.getD [] }
    else
      s

/-- Delivery of a socket message event: dispatched by `onmessage` only while
the handler is attached; after cleanup set it to `null`, the event is
dropped. -/
def wsMessageEvent (now : Nat) (raw : Option InboundData) (s : ChatState) : ChatState :=
  if s.handlerAttached then onmessage now raw s else s

/-- The effect cleanup: `ws.onmessage = null`, `clearTimeout` on every
registered timeout, `typingTimeouts.current = {}`. -/
def cleanup (s : ChatState) : ChatState :=
  { s with handlerAttached := false, typingTimeouts := [] }

/-- `true` iff `ws` exists and `ws.readyState === WebSocket.OPEN` — the
condition under which `sendWS` writes. -/
def wsIsOpen : Option WS → Bool
  | none => false
  | some w => w.readyState == ReadyState.OPEN

/-- `sendWS`: returns `false` writing nothing when `!ws ||
ws.readyState !== WebSocket.OPEN`; otherwise writes the (stringified) payload
and returns `true`.  The second component is the list of frames written by
the call. -/
def sendWS (ws : Option WS) (payload : WireFrame) : Bool × List WireFrame :=
  match ws with
  | none => (false, [])
  | some w =>
    if w.readyState ≠ ReadyState.OPEN then (false, [])
    else (true, [payload])

/-- `sendMessage(message, username)`: if `sendWS` succeeded, filter
`username` out of the typing list; the function body has no `return`
statement, so the call evaluates to `undefined` (`none`).  Result:
(JS return value, new state, frames written). -/
def sendMessage (ws : Option WS) (message : SendMessageParams) (username : String)
    (s : ChatState) : Option Bool × ChatState × List WireFrame :=
  let r := sendWS ws (WireFrame.messageFrame message)
  if r.1 then
    (none,
      { s with typingUsers := s.typingUsers.filter (fun user => decide (user ≠ some username)) },
      r.2)
  else
    (none, s, r.2)

/-- `sendTypingUsers(username)`: calls `sendWS({ type: "typing", username })`
for its effect and discards the result; the body evaluates to `undefined`. -/
def sendTypingUsers (ws : Option WS) (username : String) (s : ChatState) :
    Option Bool × ChatState × List WireFrame :=
  let r := sendWS ws (WireFrame.typingFrame username)
  (none, s, r.2)

/-- `sendSeenBy(ids)`: calls `sendWS({ type: "seen", message_ids: ids })` for
its effect and discards the result; the body evaluates to `undefined`. -/
def sendSeenBy (ws : Option WS) (ids : List Int) (s : ChatState) :
    Option Bool × ChatState × List WireFrame :=
  let r := sendWS ws (WireFrame.seenFrame ids)
  (none, s, r.2)

/-- One external stimulus of the event loop: an inbound socket message event,
one of the three exported send helpers being invoked (with the socket handle
the hook closes over at that moment), or the effect cleanup running. -/
inductive Event where
  | recv (raw : Option InboundData)
  | sendMsg (ws : Option WS) (m : SendMessageParams) (username : String)
  | sendTyping (ws : Option WS) (username : String)
  | sendSeen (ws : Option WS) (ids : List Int)
  | teardown
deriving DecidableEq, Repr

/-- Fire every registered timeout whose expiry instant has been reached
(each callback removes only its own username, so the iteration order among
simultaneously due timers does not affect the result). -/
def fireDueTimers (now : Nat) (s : ChatState) : ChatState :=
  (s.typingTimeouts.filter (fun p => decide (p.2 ≤ now))).foldl
    (fun st p => typingExpire p.1 st) s

/-- Apply one external event at instant `now`. -/
def applyEvent (now : Nat) (s : ChatState) : Event → ChatState
  | Event.recv raw => wsMessageEvent now raw s
  | Event.sendMsg ws m u => (sendMessage ws m u s).2.1
  | Event.sendTyping ws u => (sendTypingUsers ws u s).2.1
  | Event.sendSeen ws ids => (sendSeenBy ws ids s).2.1
  | Event.teardown => cleanup s

/-- Run a trace of timestamped events on the single-threaded event loop:
before each event, fire the timers due by its instant, then apply it. -/
def runEvents : List (Nat × Event) → ChatState → ChatState
  | [], s => s
  | e :: rest, s => runEvents rest (applyEvent e.1 (fireDueTimers e.1 s) e.2)

/-- Observe the state at instant `now` after a trace: timers due by `now`
have fired. -/
def observeAt (now : Nat) (evts : List (Nat × Event)) (s : ChatState) : ChatState :=
  fireDueTimers now (runEvents evts s)

/-! ### Component-preservation lemmas shared by several claims -/

theorem typingExpire_receivedMessages (u : Username) (s : ChatState) :
    (typingExpire u s).receivedMessages = s.receivedMessages := rfl

theorem typingExpire_handlerAttached (u : Username) (s : ChatState) :
    (typingExpire u s).handlerAttached = s.handlerAttached := rfl

theorem typingExpire_activeUsers (u : Username) (s : ChatState) :
    (typingExpire u s).activeUsers = s.activeUsers := rfl

theorem foldl_typingExpire_receivedMessages (l : List (Username × Nat)) (s : ChatState) :
    (l.foldl (fun st p => typingExpire p.1 st) s).receivedMessages = s.receivedMessages := by
  induction l generalizing s with
  | nil => rfl
  | cons p rest ih => exact ih (typingExpire p.1 s)

theorem foldl_typingExpire_handlerAttached (l : List (Username × Nat)) (s : ChatState) :
    (l.foldl (fun st p => typingExpire p.1 st) s).handlerAttached = s.handlerAttached := by
  induction l generalizing s with
  | nil => rfl
  | cons p rest ih => exact ih (typingExpire p.1 s)

theorem fireDueTimers_receivedMessages (now : Nat) (s : ChatState) :
    (fireDueTimers now s).receivedMessages = s.receivedMessages :=
  foldl_typingExpire_receivedMessages _ s

theorem fireDueTimers_handlerAttached (now : Nat) (s : ChatState) :
    (fireDueTimers now s).handlerAttached = s.handlerAttached :=
  foldl_typingExpire_handlerAttached _ s

theorem handleTyping_receivedMessages (now : Nat) (u : Username) (s : ChatState) :
    (handleTyping now u s).receivedMessages = s.receivedMessages := by
  unfold handleTyping
  split <;> rfl

theorem handleTyping_handlerAttached (now : Nat) (u : Username) (s : ChatState) :
    (handleTyping now u s).handlerAttached = s.handlerAttached := by
  unfold handleTyping
  split <;> rfl

/-! ### Claim C5 -/

/-- Claim C5: an inbound frame whose payload is not valid JSON is discarded by
the dispatcher with no change to any observable state (messages, typing set,
active users, timer registry, attached handler), and — being a total Lean
function — propagates no error to the consumer. -/
theorem c5_invalid_json_discarded (now : Nat) (s : ChatState) :
    onmessage now none s = s ∧ wsMessageEvent now none s = s := by
  refine ⟨rfl, ?_⟩
  unfold wsMessageEvent
  split <;> rfl

/-! ### Claim C8 -/

/-- Claim C8: an inbound frame with type `"seen"`, and any parseable frame
whose `type` matches no known discriminator (including a missing `type`),
leaves the whole state exactly as it was — message list, typing set,
active-user set and timer registry included. -/
theorem c8_inert_frames (now : Nat) (d : InboundData) (s : ChatState)
    (h : d.type = some "seen" ∨
      (d.type ≠ some "message" ∧ d.type ≠ some "typing" ∧ d.type ≠ some "seen" ∧
        d.type ≠ some "user_status")) :
    onmessage now (some d) s = s := by
  rcases h with h | ⟨h1, h2, h3, h4⟩
  · simp [onmessage, h]
  · simp [onmessage, h1, h2, h3, h4]

/-- Frame used to witness claim C8. -/
def c8SeenFrame : InboundData := { type := some "seen" }

/-- Witness for claim C8 at the concrete `"seen"` frame. -/
theorem c8_inert_frames_witness :
    onmessage 0 (some c8SeenFrame) initChatState = initChatState :=
  c8_inert_frames 0 c8SeenFrame initChatState (Or.inl rfl)

/-! ### Claim C7 -/

/-- Claim C7: a `"user_status"` frame replaces the active-user set wholesale
with the frame's `active_users` (default `[]` when absent); the result does
not depend on the previous active-user set, so no merging can occur. -/
theorem c7_user_status_replaces (now : Nat) (d : InboundData) (s : ChatState)
    (h : d.type = some "user_status") :
    (onmessage now (some d) s).activeUsers = d.active_users.getD [] := by
  simp [onmessage, h]

/-- First frame of the C7 witness scenario. -/
def c7Frame1 : InboundData := { type := some "user_status", active_users := some ["a", "b"] }

/-- Second frame of the C7 witness scenario. -/
def c7Frame2 : InboundData := { type := some "user_status", active_users := some [] }

/-- Witness for claim C7: `active_users ["a","b"]` followed by
`active_users []` leaves the active set empty. -/
theorem c7_user_status_replaces_witness :
    (onmessage 0 (some c7Frame1) initChatState).activeUsers = ["a", "b"] ∧
    (onmessage 1 (some c7Frame2) (onmessage 0 (some c7Frame1) initChatState)).activeUsers = [] := by
  constructor
  · exact (c7_user_status_replaces 0 c7Frame1 initChatState rfl).trans rfl
  · exact (c7_user_status_replaces 1 c7Frame2 _ rfl).trans rfl

/-! ### Claim C10 -/

/-- Claim C10: the `"message"` branch performs no validation: every parseable
frame with `type = "message"` gets appended, its fields copied verbatim
(absent stays absent), and the appended entry's `type` field is the literal
`"message"` whatever the rest of the payload. -/
theorem c10_no_validation (now : Nat) (d : InboundData) (s : ChatState)
    (h : d.type = some "message") :
    (onmessage now (some d) s).receivedMessages = s.receivedMessages ++ [mkReceivedMessage d] ∧
    (mkReceivedMessage d).type = "message" ∧
    (mkReceivedMessage d).sender = d.sender ∧
    (mkReceivedMessage d).content = d.content := by
  refine ⟨?_, rfl, rfl, rfl⟩
  simp [onmessage, h]

/-- Frame used to witness claim C10: `type = "message"`, every other field
(including the spec-required `sender` and `content`) absent. -/
def c10Frame : InboundData := { type := some "message" }

/-- Witness for claim C10: a `"message"` frame with absent `sender` and
`content` is still appended, carrying those fields as absent. -/
theorem c10_no_validation_witness :
    (onmessage 0 (some c10Frame) initChatState).receivedMessages = [mkReceivedMessage c10Frame] ∧
    (mkReceivedMessage c10Frame).sender = none ∧
    (mkReceivedMessage c10Frame).content = none ∧
    (mkReceivedMessage c10Frame).type = "message" := by
  have h := c10_no_validation 0 c10Frame initChatState rfl
  exact ⟨by simpa using h.1, rfl, rfl, rfl⟩

/-! ### Claim C2 -/

/-- A concrete message payload used in the C2 and C3 scenarios. -/
def demoMessage : SendMessageParams := { sender_id := 7, content := "hi" }

/-- A socket handle in the open ready-state. -/
def openWS : WS := { readyState := ReadyState.OPEN }

/-- The contract of the internal write primitive, shared by several proofs:
`sendWS` fails writing nothing when the connection is not open, succeeds
writing exactly the payload when it is. -/
theorem sendWS_spec (ws : Option WS) (f : WireFrame) :
    (wsIsOpen ws = false → sendWS ws f = (false, [])) ∧
    (wsIsOpen ws = true → sendWS ws f = (true, [f])) := by
  match ws with
  | none => exact ⟨fun _ => rfl, fun h => by simp [wsIsOpen] at h⟩
  | some w => cases hw : w.readyState <;> simp [wsIsOpen, sendWS, hw]

/-- Counterexample to claim C2 as stated: at the concrete inputs below, none
of the three public send operations returns the boolean the claim requires —
each body lacks a `return` statement, so each call evaluates to `undefined`
(`none`), both when the connection is absent and when it is open. -/
theorem c2_send_return_counterexample :
    (sendMessage none demoMessage "alice" initChatState).1 ≠ some false ∧
    (sendMessage (some openWS) demoMessage "alice" initChatState).1 ≠ some true ∧
    (sendTypingUsers none "alice" initChatState).1 ≠ some false ∧
    (sendTypingUsers (some openWS) "alice" initChatState).1 ≠ some true ∧
    (sendSeenBy none [1] initChatState).1 ≠ some false ∧
    (sendSeenBy (some openWS) [1] initChatState).1 ≠ some true := by
  refine ⟨?_, ?_, ?_, ?_, ?_, ?_⟩ <;> decide

/-- Claim C2 as amended: the internal `sendWS` primitive returns `false` and
writes no frame when the connection is not open (no socket, or ready-state
other than OPEN), and returns `true` writing exactly one frame when open;
each public send operation invokes it with the correctly-shaped frame and
writes accordingly, but discards the boolean and evaluates to `undefined`
(`none`), so callers of the public operations cannot observe success or
failure through the return value. -/
theorem c2_send_contract_amended (ws : Option WS) (m : SendMessageParams) (u : String)
    (ids : List Int) (f : WireFrame) (s : ChatState) :
    (wsIsOpen ws = false → sendWS ws f = (false, [])) ∧
    (wsIsOpen ws = true → sendWS ws f = (true, [f])) ∧
    (sendMessage ws m u s).1 = none ∧
    (sendTypingUsers ws u s).1 = none ∧
    (sendSeenBy ws ids s).1 = none ∧
    (sendMessage ws m u s).2.2 =
      (if wsIsOpen ws then [WireFrame.messageFrame m] else []) ∧
    (sendTypingUsers ws u s).2.2 =
      (if wsIsOpen ws then [WireFrame.typingFrame u] else []) ∧
    (sendSeenBy ws ids s).2.2 =
      (if wsIsOpen ws then [WireFrame.seenFrame ids] else []) := by
  match ws with
  | none =>
    refine ⟨fun _ => rfl, fun h => by simp [wsIsOpen] at h, rfl, rfl, rfl, ?_, ?_, ?_⟩ <;> rfl
  | some w =>
    cases hw : w.readyState <;>
      simp [wsIsOpen, sendWS, sendMessage, sendTypingUsers, sendSeenBy, hw]

/-- Witness for the amended claim C2, at an open socket and at an absent
one. -/
theorem c2_send_contract_amended_witness :
    sendWS (some openWS) (WireFrame.typingFrame "alice") =
      (true, [WireFrame.typingFrame "alice"]) ∧
    sendWS none (WireFrame.typingFrame "alice") = (false, []) ∧
    (sendMessage (some openWS) demoMessage "alice" initChatState).1 = none ∧
    (sendTypingUsers (some openWS) "alice" initChatState).2.2 =
      [WireFrame.typingFrame "alice"] := by
  refine ⟨?_, ?_, ?_, ?_⟩
  · exact (c2_send_contract_amended (some openWS) demoMessage "alice" [1]
      (WireFrame.typingFrame "alice") initChatState).2.1 rfl
  · exact (c2_send_contract_amended none demoMessage "alice" [1]
      (WireFrame.typingFrame "alice") initChatState).1 rfl
  · exact (c2_send_contract_amended (some openWS) demoMessage "alice" [1]
      (WireFrame.typingFrame "alice") initChatState).2.2.1
  · exact ((c2_send_contract_amended (some openWS) demoMessage "alice" [1]
      (WireFrame.typingFrame "alice") initChatState).2.2.2.2.2.2.1).trans (by rfl)

/-! ### Claim C3 -/

/-- Claim C3: `sendMessage(payload, U)` — when the connection is open, the
payload is written (exactly one frame) and `U` is removed from the typing
set immediately, the pending timer registry left untouched (removal does not
wait for, or depend on, any timer for `U`); when it is not open, no frame is
written and the state is unchanged in every component. -/
theorem c3_sendMessage_contract (ws : Option WS) (m : SendMessageParams) (u : String)
    (s : ChatState) :
    (wsIsOpen ws = true →
      (sendMessage ws m u s).2.2 = [WireFrame.messageFrame m] ∧
      (sendMessage ws m u s).2.1.typingUsers =
        s.typingUsers.filter (fun user => decide (user ≠ some u)) ∧
      some u ∉ (sendMessage ws m u s).2.1.typingUsers ∧
      (sendMessage ws m u s).2.1.typingTimeouts = s.typingTimeouts ∧
      (sendMessage ws m u s).2.1.receivedMessages = s.receivedMessages ∧
      (sendMessage ws m u s).2.1.activeUsers = s.activeUsers) ∧
    (wsIsOpen ws = false →
      (sendMessage ws m u s).2.2 = [] ∧ (sendMessage ws m u s).2.1 = s) := by
  constructor
  · intro h
    have hsend : sendWS ws (WireFrame.messageFrame m) = (true, [WireFrame.messageFrame m]) :=
      (sendWS_spec ws (WireFrame.messageFrame m)).2 h
    refine ⟨?_, ?_, ?_, ?_, ?_, ?_⟩ <;>
      simp [sendMessage, hsend, List.mem_filter]
  · intro h
    have hsend : sendWS ws (WireFrame.messageFrame m) = (false, []) :=
      (sendWS_spec ws (WireFrame.messageFrame m)).1 h
    constructor <;> simp [sendMessage, hsend]

/-- A state in which "bob" is typing with a pending timer, used to witness
claims about `sendMessage` and teardown. -/
def bobTypingState : ChatState :=
  { typingUsers := [some "bob"], typingTimeouts := [(some "bob", 3000)] }

/-- Witness for claim C3: on an open socket, sending "bob"'s message removes
"bob" from the typing set at once while the timer entry survives; on an
absent socket, nothing changes. -/
theorem c3_sendMessage_contract_witness :
    ((sendMessage (some openWS) demoMessage "bob" bobTypingState).2.1.typingUsers = [] ∧
      (sendMessage (some openWS) demoMessage "bob" bobTypingState).2.1.typingTimeouts =
        [(some "bob", 3000)] ∧
      (sendMessage (some openWS) demoMessage "bob" bobTypingState).2.2 =
        [WireFrame.messageFrame demoMessage]) ∧
    (sendMessage none demoMessage "bob" bobTypingState).2.1 = bobTypingState := by
  have hopen := (c3_sendMessage_contract (some openWS) demoMessage "bob" bobTypingState).1 rfl
  have hclosed := (c3_sendMessage_contract none demoMessage "bob" bobTypingState).2 rfl
  refine ⟨⟨?_, ?_, hopen.1⟩, hclosed.2⟩
  · exact hopen.2.1.trans (by decide)
  · exact hopen.2.2.2.1

/-! ### Claim C1 -/

/-- An inbound `"typing"` frame for the given username. -/
def typingFrame (u : String) : InboundData := { type := some "typing", username := some u }

/-- Failing trace for claim C1: two `"typing"` frames for "alice", at 0 ms
and at 1000 ms. -/
def c1Events : List (Nat × Event) :=
  [(0, Event.recv (some (typingFrame "alice"))), (1000, Event.recv (some (typingFrame "alice")))]

/-- Claim C1 is violated by the code: after the second `"typing"` frame for
"alice" (1000 ms after the first), the timeout registry still holds the
expiry instant 3000 of the first frame's timer — the updater's early return
on an already-present username skips the cancel-and-restart — so "alice" is
removed from the typing set when instant 3000 is reached, which is earlier
than the 1000 + 3000 = 4000 the claim requires. -/
theorem c1_timer_not_reset :
    (runEvents c1Events initChatState).typingUsers = [some "alice"] ∧
    (runEvents c1Events initChatState).typingTimeouts = [(some "alice", 3000)] ∧
    (runEvents c1Events initChatState).typingTimeouts ≠ [(some "alice", 4000)] ∧
    (observeAt 3000 c1Events initChatState).typingUsers = [] := by
  refine ⟨?_, ?_, ?_, ?_⟩ <;> decide

/-! ### Claim C6 -/

/-- A parseable `"message"` frame delivered after teardown in the C6
witness. -/
def lateFrame : InboundData :=
  { type := some "message", sender := some "eve", content := some "late" }

/-- Claim C6: the effect cleanup detaches the inbound handler and empties the
timeout registry in one synchronous step; afterwards no timer remains to
fire (firing due timers on the cleaned state is the identity) and a
delivered socket message event is dropped without any state change; and a
stray timer fire for a username already absent from the typing set leaves
the typing set exactly as it was (removing an absent element is a successful
no-op). -/
theorem c6_teardown_contract (s : ChatState) (t : Nat) (raw : Option InboundData)
    (u : Username) (h : u ∉ s.typingUsers) :
    (cleanup s).handlerAttached = false ∧
    (cleanup s).typingTimeouts = [] ∧
    fireDueTimers t (cleanup s) = cleanup s ∧
    wsMessageEvent t raw (cleanup s) = cleanup s ∧
    applyEvent t (cleanup s) (Event.recv raw) = cleanup s ∧
    (typingExpire u s).typingUsers = s.typingUsers := by
  refine ⟨rfl, rfl, rfl, ?_, ?_, ?_⟩
  · simp [wsMessageEvent, cleanup]
  · simp [applyEvent, wsMessageEvent, cleanup]
  · show s.typingUsers.filter (fun user => decide (user ≠ u)) = s.typingUsers
    apply List.filter_eq_self.mpr
    intro a ha
    simp only [decide_eq_true_eq]
    intro hau
    exact h (hau ▸ ha)

/-- Witness for claim C6 at a concrete state with "bob" typing under a
pending timer: cleanup empties the registry, a later timer sweep and a later
inbound frame change nothing, and a stray fire for the absent "carol" leaves
the typing set untouched. -/
theorem c6_teardown_contract_witness :
    some "carol" ∉ bobTypingState.typingUsers ∧
    (cleanup bobTypingState).typingTimeouts = [] ∧
    fireDueTimers 9999 (cleanup bobTypingState) = cleanup bobTypingState ∧
    wsMessageEvent 9999 (some lateFrame) (cleanup bobTypingState) = cleanup bobTypingState ∧
    (typingExpire (some "carol") bobTypingState).typingUsers = bobTypingState.typingUsers := by
  have h := c6_teardown_contract bobTypingState 9999 (some lateFrame) (some "carol") (by decide)
  exact ⟨by decide, h.2.1, h.2.2.1, h.2.2.2.1, h.2.2.2.2.2⟩

/-! ### Dispatch-effect lemmas used by the trace claims C4 and C9 -/

theorem wsMessageEvent_attached (now : Nat) (raw : Option InboundData) (s : ChatState)
    (h : s.handlerAttached = true) : wsMessageEvent now raw s = onmessage now raw s := by
  simp [wsMessageEvent, h]

theorem onmessage_handlerAttached (now : Nat) (raw : Option InboundData) (s : ChatState) :
    (onmessage now raw s).handlerAttached = s.handlerAttached := by
  rcases raw with _ | d
  · rfl
  · by_cases h1 : d.type = some "message"
    · simp [onmessage, h1]
    · by_cases h2 : d.type = some "typing"
      · simp [onmessage, h1, h2, handleTyping_handlerAttached]
      · by_cases h3 : d.type = some "seen"
        · simp [onmessage, h1, h2, h3]
        · by_cases h4 : d.type = some "user_status"
          · simp [onmessage, h1, h2, h3, h4]
          · simp [onmessage, h1, h2, h3, h4]

/-- What an inbound event contributes to the message list: the constructed
entry for a parseable `type = "message"` frame, nothing otherwise. -/
def msgDelta : Option InboundData → List ReceivedMessage
  | some d => if d.type = some "message" then [mkReceivedMessage d] else []
  | none => []

theorem onmessage_receivedMessages (now : Nat) (raw : Option InboundData) (s : ChatState) :
    (onmessage now raw s).receivedMessages = s.receivedMessages ++ msgDelta raw := by
  rcases raw with _ | d
  · simp [onmessage, msgDelta]
  · by_cases h1 : d.type = some "message"
    · simp [onmessage, msgDelta, h1]
    · by_cases h2 : d.type = some "typing"
      · simp [onmessage, msgDelta, h1, h2, handleTyping_receivedMessages]
      · by_cases h3 : d.type = some "seen"
        · simp [onmessage, msgDelta, h1, h2, h3]
        · by_cases h4 : d.type = some "user_status"
          · simp [onmessage, msgDelta, h1, h2, h3, h4]
          · simp [onmessage, msgDelta, h1, h2, h3, h4]

theorem sendMessage_receivedMessages (ws : Option WS) (m : SendMessageParams) (u : String)
    (s : ChatState) :
    (sendMessage ws m u s).2.1.receivedMessages = s.receivedMessages := by
  by_cases h : (sendWS ws (WireFrame.messageFrame m)).1 = true <;> simp [sendMessage, h]

theorem sendMessage_handlerAttached (ws : Option WS) (m : SendMessageParams) (u : String)
    (s : ChatState) :
    (sendMessage ws m u s).2.1.handlerAttached = s.handlerAttached := by
  by_cases h : (sendWS ws (WireFrame.messageFrame m)).1 = true <;> simp [sendMessage, h]

theorem applyEvent_handlerAttached (now : Nat) (s : ChatState) (ev : Event)
    (hev : ev ≠ Event.teardown) :
    (applyEvent now s ev).handlerAttached = s.handlerAttached := by
  cases ev with
  | recv raw =>
    show (wsMessageEvent now raw s).handlerAttached = s.handlerAttached
    unfold wsMessageEvent
    split
    · exact onmessage_handlerAttached now raw s
    · rfl
  | sendMsg ws m u => exact sendMessage_handlerAttached ws m u s
  | sendTyping ws u => rfl
  | sendSeen ws ids => rfl
  | teardown => exact absurd rfl hev

/-! ### Claim C4 -/

/-- The message-list entry a trace event contributes, if any: exactly the
constructed `ReceivedMessage` when the event is the arrival of a parseable
frame with `type = "message"`. -/
def messageOf : Nat × Event → Option ReceivedMessage
  | (_, Event.recv (some d)) =>
      if d.type = some "message" then some (mkReceivedMessage d) else none
  | _ => none

theorem messageOf_recv (t : Nat) (raw : Option InboundData) :
    (messageOf (t, Event.recv raw)).toList = msgDelta raw := by
  rcases raw with _ | d
  · rfl
  · by_cases h : d.type = some "message" <;> simp [messageOf, msgDelta, h]

/-- Claim C4: over any trace of events (inbound frames of every kind, timer
fires, send actions — teardown excluded) starting from a state with the
handler attached, the message list ends as the original list followed by
exactly one constructed entry per valid `type = "message"` frame, in arrival
order: entries are append-only and built field-by-field by
`mkReceivedMessage` (absent optional fields stay absent). -/
theorem c4_messages_append_only (evts : List (Nat × Event)) (s : ChatState)
    (hA : s.handlerAttached = true)
    (hT : ∀ e ∈ evts, e.2 ≠ Event.teardown) :
    (runEvents evts s).receivedMessages = s.receivedMessages ++ evts.filterMap messageOf := by
  induction evts generalizing s with
  | nil => simp [runEvents]
  | cons e rest ih =>
    obtain ⟨t, ev⟩ := e
    have hev : ev ≠ Event.teardown := hT (t, ev) (List.mem_cons_self _ _)
    have hA0 : (fireDueTimers t s).handlerAttached = true := by
      rw [fireDueTimers_handlerAttached]; exact hA
    have hA1 : (applyEvent t (fireDueTimers t s) ev).handlerAttached = true := by
      rw [applyEvent_handlerAttached t _ ev hev]; exact hA0
    have hrest : ∀ e ∈ rest, e.2 ≠ Event.teardown :=
      fun e he => hT e (List.mem_cons_of_mem _ he)
    have hδ : (applyEvent t (fireDueTimers t s) ev).receivedMessages =
        s.receivedMessages ++ (messageOf (t, ev)).toList := by
      cases ev with
      | recv raw =>
        show (wsMessageEvent t raw (fireDueTimers t s)).receivedMessages = _
        rw [wsMessageEvent_attached t raw _ hA0, onmessage_receivedMessages,
          fireDueTimers_receivedMessages, messageOf_recv]
      | sendMsg ws m u =>
        show (sendMessage ws m u (fireDueTimers t s)).2.1.receivedMessages = _
        rw [sendMessage_receivedMessages, fireDueTimers_receivedMessages]
        simp [messageOf]
      | sendTyping ws u =>
        show (sendTypingUsers ws u (fireDueTimers t s)).2.1.receivedMessages = _
        rw [show (sendTypingUsers ws u (fireDueTimers t s)).2.1 = fireDueTimers t s from rfl,
          fireDueTimers_receivedMessages]
        simp [messageOf]
      | sendSeen ws ids =>
        show (sendSeenBy ws ids (fireDueTimers t s)).2.1.receivedMessages = _
        rw [show (sendSeenBy ws ids (fireDueTimers t s)).2.1 = fireDueTimers t s from rfl,
          fireDueTimers_receivedMessages]
        simp [messageOf]
      | teardown => exact absurd rfl hev
    have hrun : runEvents ((t, ev) :: rest) s =
        runEvents rest (applyEvent t (fireDueTimers t s) ev) := rfl
    rw [hrun, ih _ hA1 hrest, hδ, List.filterMap_cons, List.append_assoc]
    cases hmo : messageOf (t, ev) <;> simp [hmo]

/-- A full `"message"` frame for the C4 witness trace. -/
def msgFrameFull : InboundData :=
  { type := some "message", id := some 1, sender := some "eve", content := some "one",
    timestamp := some "t1" }

/-- A `"message"` frame missing its optional fields, for the C4 witness
trace. -/
def msgFrameBare : InboundData := { type := some "message", sender := some "eve" }

/-- Witness trace for claim C4: two valid message frames interleaved with an
unparseable frame, a typing frame, a user-status frame and a send action. -/
def c4Events : List (Nat × Event) :=
  [(0, Event.recv (some msgFrameFull)),
   (5, Event.recv none),
   (10, Event.recv (some (typingFrame "dana"))),
   (15, Event.recv (some { type := some "user_status", active_users := some ["a"] })),
   (20, Event.recv (some msgFrameBare)),
   (25, Event.sendMsg (some openWS) demoMessage "dana")]

/-- Witness for claim C4 on the concrete trace `c4Events`. -/
theorem c4_messages_append_only_witness :
    initChatState.handlerAttached = true ∧
    (∀ e ∈ c4Events, e.2 ≠ Event.teardown) ∧
    (runEvents c4Events initChatState).receivedMessages =
      initChatState.receivedMessages ++ c4Events.filterMap messageOf ∧
    c4Events.filterMap messageOf = [mkReceivedMessage msgFrameFull, mkReceivedMessage msgFrameBare] := by
  refine ⟨rfl, by decide, c4_messages_append_only c4Events initChatState rfl (by decide), by decide⟩

/-! ### Claim C9 -/

theorem foldl_typingExpire_nodup (l : List (Username × Nat)) (s : ChatState)
    (h : s.typingUsers.Nodup) :
    ((l.foldl (fun st p => typingExpire p.1 st) s).typingUsers).Nodup := by
  induction l generalizing s with
  | nil => exact h
  | cons p rest ih => exact ih (typingExpire p.1 s) (h.filter _)

theorem fireDueTimers_nodup (now : Nat) (s : ChatState) (h : s.typingUsers.Nodup) :
    (fireDueTimers now s).typingUsers.Nodup :=
  foldl_typingExpire_nodup _ s h

theorem handleTyping_nodup (now : Nat) (u : Username) (s : ChatState)
    (h : s.typingUsers.Nodup) : (handleTyping now u s).typingUsers.Nodup := by
  unfold handleTyping
  split
  · exact h
  · next hmem =>
    show (s.typingUsers ++ [u]).Nodup
    rw [List.nodup_append]
    refine ⟨h, List.nodup_singleton u, ?_⟩
    intro a ha hau
    simp only [List.mem_singleton] at hau
    exact hmem (hau ▸ ha)

theorem onmessage_nodup (now : Nat) (raw : Option InboundData) (s : ChatState)
    (h : s.typingUsers.Nodup) : (onmessage now raw s).typingUsers.Nodup := by
  rcases raw with _ | d
  · exact h
  · by_cases h1 : d.type = some "message"
    · simpa [onmessage, h1] using h
    · by_cases h2 : d.type = some "typing"
      · have : onmessage now (some d) s = handleTyping now d.username s := by
          simp [onmessage, h1, h2]
        rw [this]
        exact handleTyping_nodup now d.username s h
      · by_cases h3 : d.type = some "seen"
        · simpa [onmessage, h1, h2, h3] using h
        · by_cases h4 : d.type = some "user_status"
          · simpa [onmessage, h1, h2, h3, h4] using h
          · simpa [onmessage, h1, h2, h3, h4] using h

theorem sendMessage_nodup (ws : Option WS) (m : SendMessageParams) (u : String) (s : ChatState)
    (h : s.typingUsers.Nodup) : (sendMessage ws m u s).2.1.typingUsers.Nodup := by
  by_cases hc : (sendWS ws (WireFrame.messageFrame m)).1 = true
  · have : (sendMessage ws m u s).2.1.typingUsers =
        s.typingUsers.filter (fun user => decide (user ≠ some u)) := by
      simp [sendMessage, hc]
    rw [this]
    exact h.filter _
  · have : (sendMessage ws m u s).2.1.typingUsers = s.typingUsers := by
      simp [sendMessage, hc]
    rw [this]
    exact h

theorem applyEvent_nodup (now : Nat) (s : ChatState) (ev : Event)
    (h : s.typingUsers.Nodup) : (applyEvent now s ev).typingUsers.Nodup := by
  cases ev with
  | recv raw =>
    show (wsMessageEvent now raw s).typingUsers.Nodup
    unfold wsMessageEvent
    split
    · exact onmessage_nodup now raw s h
    · exact h
  | sendMsg ws m u => exact sendMessage_nodup ws m u s h
  | sendTyping ws u => exact h
  | sendSeen ws ids => exact h
  | teardown => exact h

/-- Claim C9: the typing set never holds the same username twice — every
operation that can mutate it (a `"typing"` frame dispatch with its
early-return-or-add-and-arm behaviour, a timer fire, a `sendMessage` clear,
any other frame, teardown) preserves duplicate-freedom, over any event
trace. -/
theorem c9_typing_no_duplicates (evts : List (Nat × Event)) (s : ChatState)
    (h : s.typingUsers.Nodup) : (runEvents evts s).typingUsers.Nodup := by
  induction evts generalizing s with
  | nil => exact h
  | cons e rest ih =>
    exact ih _ (applyEvent_nodup e.1 _ e.2 (fireDueTimers_nodup e.1 s h))

/-- Witness trace for claim C9: repeated `"typing"` frames for "dana", a
second user, a timer expiry and a send clear. -/
def c9Events : List (Nat × Event) :=
  [(0, Event.recv (some (typingFrame "dana"))),
   (10, Event.recv (some (typingFrame "dana"))),
   (20, Event.recv (some (typingFrame "erin"))),
   (30, Event.sendMsg (some openWS) demoMessage "dana"),
   (4000, Event.recv (some (typingFrame "dana")))]

/-- Witness for claim C9 on the concrete trace `c9Events`. -/
theorem c9_typing_no_duplicates_witness :
    initChatState.typingUsers.Nodup ∧
    (runEvents c9Events initChatState).typingUsers.Nodup ∧
    (runEvents c9Events initChatState).typingUsers = [some "dana"] :=
  ⟨by decide, c9_typing_no_duplicates c9Events initChatState (by decide), by decide⟩
